import Mathlib

/-!
Shallow embedding of the rylone hexagon-coverage pipeline.

Numbers that are IEEE doubles in the TypeScript source are modelled as exact
rationals; counts are naturals and grid resolutions are integers.  External
collaborators (the H3 grid-indexing library, the turf distance function and
the paginated search API) are modelled as explicit oracle parameters; a call
that may throw is modelled as an Except value.  A TypeScript function that
catches internally and falls back is total here; one whose catch rethrows
returns Except.error.
-/

namespace Rylone

/-- An external business record.  The identity key is the sole deduplication
criterion used by the code; the remaining payload fields are opaque to every
function modelled here, so they are collapsed into the coordinate pair. -/
structure Business where
  id : String
  coordinates : ℚ × ℚ
deriving DecidableEq, Repr

/-! ### hexagonSplitter.ts -/

namespace HexagonSplitter

/-- Per-child input of mergeSubHexagonResults:
record of h3Id, businesses and total. -/
structure SubResult where
  h3Id : String
  businesses : List Business
  total : Nat
deriving DecidableEq, Repr

/-- detectDenseHexagon from hexagonSplitter.ts: a hexagon is dense when it has
more than 240 businesses. -/
def detectDenseHexagon (total : Nat) : Bool :=
  240 < total

/-- The SplitHexagon record built for each child cell. -/
structure SplitHexagon where
  h3Id : String
  parentH3Id : String
  resolution : ℤ
  center : ℚ × ℚ
  status : String
  yelpTotalBusinesses : Option Nat
deriving DecidableEq, Repr

/-- The HexagonSplitResult record returned by splitHexagon. -/
structure HexagonSplitResult where
  originalHexagon : String
  splitHexagons : List SplitHexagon
  totalSubHexagons : Nat
  splitReason : String
  estimatedCoverage : String
deriving DecidableEq, Repr

/-- The slice of the h3-js grid-indexing collaborator used by
hexagonSplitter.ts, as a pure oracle. -/
structure SplitterGrid where
  cellToLatLng : String → ℚ × ℚ
  cellToChildren : String → ℤ → List String

/-- calculateCoverageImprovement from hexagonSplitter.ts: Math.pow(7, diff)
classified into a quality word, rendered with the hexagon multiplier. -/
def calculateCoverageImprovement (currentRes targetRes : ℤ) : String :=
  let resolutionDiff : ℤ := targetRes - currentRes
  let estimatedHexagons : ℚ := (7 : ℚ) ^ resolutionDiff
  let improvement :=
    if 49 ≤ estimatedHexagons then "excellent"
    else if 7 ≤ estimatedHexagons then "good"
    else if 2 ≤ estimatedHexagons then "moderate"
    else "minimal"
  improvement ++ " (" ++ toString estimatedHexagons ++ "x more hexagons)"

/-- splitHexagon from hexagonSplitter.ts.  The only validation performed is
the strict resolution increase; any Error thrown inside the try block is
rethrown wrapped, modelled as Except.error. -/
def splitHexagon (g : SplitterGrid) (h3Id : String)
    (currentResolution targetResolution : ℤ) : Except String HexagonSplitResult :=
  if targetResolution ≤ currentResolution then
    .error ("Failed to split hexagon " ++ h3Id ++
      ": Target resolution must be higher than current resolution")
  else
    let childHexagons := g.cellToChildren h3Id targetResolution
    let splitHexagons : List SplitHexagon := childHexagons.map (fun childId =>
      { h3Id := childId
        parentH3Id := h3Id
        resolution := targetResolution
        center := g.cellToLatLng childId
        status := "queued"
        yelpTotalBusinesses := none })
    .ok
      { originalHexagon := h3Id
        splitHexagons := splitHexagons
        totalSubHexagons := childHexagons.length
        splitReason := "Dense hexagon with >240 businesses - split for better coverage"
        estimatedCoverage := calculateCoverageImprovement currentResolution targetResolution }

/-- Output record of mergeSubHexagonResults. -/
structure MergeOutput where
  totalBusinesses : Nat
  uniqueBusinesses : List Business
  coverageStatus : String
  subHexagonStatus : List String
deriving DecidableEq, Repr

/-- Accumulator of the merge loop in mergeSubHexagonResults. -/
structure MergeAcc where
  totalBusinesses : Nat
  subHexagonStatus : List String
  allBusinesses : List Business
deriving Repr

/-- One iteration of the outer loop in mergeSubHexagonResults: add the total,
record the per-child status line, and append the unseen businesses in order
(the Set of seen ids is exactly the ids already in the accumulator). -/
def mergeStep (acc : MergeAcc) (r : SubResult) : MergeAcc :=
  let status := if 240 < r.total then "dense" else "fetched"
  let acc := { acc with
    totalBusinesses := acc.totalBusinesses + r.total
    subHexagonStatus := acc.subHexagonStatus ++
      [r.h3Id ++ ": " ++ status ++ " (" ++ toString r.total ++ " businesses)"] }
  { acc with
    allBusinesses := r.businesses.foldl
      (fun l b => if (l.map Business.id).contains b.id then l else l ++ [b])
      acc.allBusinesses }

/-- mergeSubHexagonResults from hexagonSplitter.ts.  The coverage status
starts at complete, is set to partial-dense when some child is still dense,
and is then overwritten to partial-empty when some child returned zero. -/
def mergeSubHexagonResults (originalH3Id : String) (splitResults : List SubResult) :
    MergeOutput :=
  let _ := originalH3Id
  let acc := splitResults.foldl mergeStep ⟨0, [], []⟩
  let coverageStatus := "complete"
  let coverageStatus :=
    if splitResults.any (fun r => decide (240 < r.total)) then "partial-dense"
    else coverageStatus
  let coverageStatus :=
    if splitResults.any (fun r => decide (r.total = 0)) then "partial-empty"
    else coverageStatus
  { totalBusinesses := acc.totalBusinesses
    uniqueBusinesses := acc.allBusinesses
    coverageStatus := coverageStatus
    subHexagonStatus := acc.subHexagonStatus }

/-- validateSplitConfiguration from hexagonSplitter.ts: rejects a
non-increase, a jump of more than 2 levels, and a target above 12. -/
def validateSplitConfiguration (currentResolution targetResolution : ℤ) : Bool :=
  if targetResolution ≤ currentResolution then false
  else if 2 < targetResolution - currentResolution then false
  else if 12 < targetResolution then false
  else true

end HexagonSplitter

/-! ### hexagonCoverage.ts (src/unnamed/part_001) -/

namespace HexagonCoverage

/-- Probe role tag. -/
inductive PointType where
  | primary
  | corner
  | edge
deriving DecidableEq, Repr

/-- A SearchPoint: center, radius in meters, role and description. -/
structure SearchPoint where
  lat : ℚ
  lng : ℚ
  radius : ℚ
  type : PointType
  description : String
deriving DecidableEq, Repr

/-- The HexagonCoverage record returned by generateSearchPoints. -/
structure Coverage where
  h3Id : String
  center : ℚ × ℚ
  searchPoints : List SearchPoint
  totalRadius : ℚ
  coverageStrategy : String
deriving DecidableEq, Repr

/-- The external collaborators used by hexagonCoverage.ts: the h3-js grid
oracle and the turf distance function, each of which may throw. -/
structure GeoWorld where
  cellToLatLng : String → Except String (ℚ × ℚ)
  cellToBoundary : String → Except String (List (ℚ × ℚ))
  distance : ℚ × ℚ → ℚ × ℚ → Except String ℚ
  cellArea : String → Except String ℚ

/-- The loop of calculateOptimalRadius: fold Math.max over the distances from
the center to each boundary vertex (turf takes lng-lat order); the first
throw aborts the loop. -/
def maxDistanceLoop (w : GeoWorld) (center : ℚ × ℚ) :
    List (ℚ × ℚ) → ℚ → Except String ℚ
  | [], maxDistance => .ok maxDistance
  | corner :: rest, maxDistance =>
    match w.distance (center.2, center.1) (corner.2, corner.1) with
    | .error e => .error e
    | .ok d => maxDistanceLoop w center rest (max maxDistance d)

/-- calculateOptimalRadius from hexagonCoverage.ts: 90 percent of the max
center-to-vertex distance, capped at 110 percent of the hardcoded 1060 m
resolution-7 inradius, rounded; any throw inside falls back to 1060. -/
def calculateOptimalRadius (w : GeoWorld) (center : ℚ × ℚ)
    (boundary : List (ℚ × ℚ)) : ℚ :=
  match maxDistanceLoop w center boundary 0 with
  | .error _ => 1060
  | .ok maxDistance =>
    let estimatedInradius : ℚ := 1060
    let safeRadius := min (maxDistance * (9 / 10)) (estimatedInradius * (11 / 10))
    ((round safeRadius : ℤ) : ℚ)

/-- calculateHexagonArea from hexagonCoverage.ts: the h3 cell area in km2,
with a throw caught and turned into 0. -/
def calculateHexagonArea (w : GeoWorld) (h3Id : String) : ℚ :=
  match w.cellArea h3Id with
  | .error _ => 0
  | .ok area => area

/-- Render a radius in meters as the toFixed(1) kilometer string used in the
probe descriptions. -/
def kmString (r : ℚ) : String :=
  let tenths : ℤ := round (r / 100)
  toString (tenths / 10) ++ "." ++ toString (tenths % 10)

/-- generateCornerSearches from hexagonCoverage.ts: probes at the first
min(maxCorners, length) boundary vertices, radius = min(0.6 x primary,
0.9 x 1060). -/
def generateCornerSearches (boundary : List (ℚ × ℚ)) (primaryRadius : ℚ)
    (maxCorners : Nat) : List SearchPoint :=
  let estimatedInradius : ℚ := 1060
  let maxSafeRadius := estimatedInradius * (9 / 10)
  let cornerRadius := min (primaryRadius * (6 / 10)) maxSafeRadius
  let cornersToUse := min maxCorners boundary.length
  (boundary.take cornersToUse).enum.map (fun ic =>
    { lat := ic.2.1
      lng := ic.2.2
      radius := cornerRadius
      type := PointType.corner
      description := "Corner " ++ toString (ic.1 + 1) ++ " coverage point" })

/-- generateEdgeSearches from hexagonCoverage.ts: probes at the midpoints of
the first min(maxEdges, length) edges, radius = min(0.8 x primary,
0.9 x 1060). -/
def generateEdgeSearches (boundary : List (ℚ × ℚ)) (primaryRadius : ℚ)
    (maxEdges : Nat) : List SearchPoint :=
  let estimatedInradius : ℚ := 1060
  let maxSafeRadius := estimatedInradius * (9 / 10)
  let edgeRadius := min (primaryRadius * (8 / 10)) maxSafeRadius
  let edgesToUse := min maxEdges boundary.length
  (List.range edgesToUse).map (fun i =>
    let currentCorner := boundary.getD i (0, 0)
    let nextCorner := boundary.getD ((i + 1) % boundary.length) (0, 0)
    { lat := (currentCorner.1 + nextCorner.1) / 2
      lng := (currentCorner.2 + nextCorner.2) / 2
      radius := edgeRadius
      type := PointType.edge
      description := "Edge " ++ toString (i + 1) ++ " midpoint coverage" })

/-- generateAdaptiveSearchPoints from hexagonCoverage.ts: always the primary
center probe, then 3 corner + 2 edge probes for area > 8 km2, 2 corner probes
for 3 < area <= 8 km2, and nothing else for area <= 3 km2. -/
def generateAdaptiveSearchPoints (center : ℚ × ℚ) (boundary : List (ℚ × ℚ))
    (primaryRadius : ℚ) (hexagonArea : ℚ) : List SearchPoint :=
  let optimizedRadius := primaryRadius
  let primaryPoint : SearchPoint :=
    { lat := center.1
      lng := center.2
      radius := optimizedRadius
      type := PointType.primary
      description := "Center point with H3-optimized " ++ kmString optimizedRadius
        ++ "km radius" }
  let extra :=
    if 8 < hexagonArea then
      generateCornerSearches boundary optimizedRadius 3 ++
        generateEdgeSearches boundary optimizedRadius 2
    else if 3 < hexagonArea then
      generateCornerSearches boundary optimizedRadius 2
    else
      []
  primaryPoint :: extra

/-- generateSearchPoints from hexagonCoverage.ts.  The h3 center and boundary
lookups sit inside the try block whose catch rethrows a wrapped error; the
radius and area computations catch internally and fall back. -/
def generateSearchPoints (w : GeoWorld) (h3Id : String) : Except String Coverage :=
  match w.cellToLatLng h3Id with
  | .error _ => .error ("Failed to generate search points for hexagon " ++ h3Id)
  | .ok center =>
    match w.cellToBoundary h3Id with
    | .error _ => .error ("Failed to generate search points for hexagon " ++ h3Id)
    | .ok boundary =>
      let primaryRadius := calculateOptimalRadius w center boundary
      let optimizedRadius := primaryRadius
      let hexagonArea := calculateHexagonArea w h3Id
      let searchPoints :=
        generateAdaptiveSearchPoints center boundary optimizedRadius hexagonArea
      .ok
        { h3Id := h3Id
          center := center
          searchPoints := searchPoints
          totalRadius := optimizedRadius
          coverageStrategy := "adaptive-coverage-optimized" }

/-- validateCoverage from hexagonCoverage.ts: needs a nonempty plan, some
primary probe (Array.find), and at least 2 corner probes when the cell area
exceeds 10 km2. -/
def validateCoverage (w : GeoWorld) (cov : Coverage) : Bool :=
  if cov.searchPoints.length = 0 then false
  else
    match cov.searchPoints.find? (fun p => p.type = PointType.primary) with
    | none => false
    | some _ =>
      let cornerPoints := cov.searchPoints.filter (fun p => p.type = PointType.corner)
      let hexagonArea := calculateHexagonArea w cov.h3Id
      if 10 < hexagonArea ∧ cornerPoints.length < 2 then false
      else true

/-- Modelled from the spec: the primary-probe radius formula the claim C4
ascribes to the code, with the in-radius bound taken from the cell of the
actual grid resolution rather than the hardcoded resolution-7 constant.
The spec anchors the resolution-7 in-radius at about 1060 m and each finer
level divides the cell area by about 7, so a resolution-8 cell has in-radius
about 1060 / sqrt 7, approximately 400 m. -/
def claimPrimaryRadius (expectedInradius : ℚ) (maxDistance : ℚ) : ℚ :=
  ((round (min (maxDistance * (9 / 10)) (expectedInradius * (11 / 10))) : ℤ) : ℚ)

end HexagonCoverage

/-! ### apiQuotaManager.ts (src/unnamed/part_004) -/

namespace APIQuotaManager

/-- The mutable counters of the APIQuotaManager class. -/
structure QuotaState where
  dailyUsage : ℚ
  dailyLimit : ℚ
  perSecondLimit : ℚ
  currentSecondUsage : ℚ
deriving DecidableEq, Repr

/-- The QuotaEstimate record returned by estimateQuotaForCity. -/
structure QuotaEstimate where
  estimatedCalls : ℚ
  currentDailyUsage : ℚ
  remainingQuota : ℚ
  canProcessRequest : Bool
  riskLevel : String
  recommendations : List String
deriving DecidableEq, Repr

/-- estimateQuotaForCity from apiQuotaManager.ts: classifies the estimate
against the remaining daily quota with three strict 0.8/0.6/0.4 threshold
tests, and allows processing when the estimate fits into the remainder. -/
def estimateQuotaForCity (s : QuotaState) (hexagonCount : ℚ)
    (averageSearchPointsPerHexagon : ℚ := 7)
    (estimatedPagesPerSearch : ℚ := 3 / 2) : QuotaEstimate :=
  let estimatedCalls := hexagonCount * averageSearchPointsPerHexagon * estimatedPagesPerSearch
  let currentDailyUsage := s.dailyUsage
  let remainingQuota := s.dailyLimit - currentDailyUsage
  let canProcessRequest := decide (estimatedCalls ≤ remainingQuota)
  let riskRec : String × List String :=
    if remainingQuota * (8 / 10) < estimatedCalls then
      ("critical",
       ["Request exceeds 80% of remaining quota",
        "Consider processing in smaller batches",
        "Wait for daily quota reset"])
    else if remainingQuota * (6 / 10) < estimatedCalls then
      ("high",
       ["Request uses significant portion of remaining quota",
        "Monitor usage closely"])
    else if remainingQuota * (4 / 10) < estimatedCalls then
      ("medium",
       ["Request uses moderate portion of remaining quota",
        "Proceed with caution"])
    else
      ("low",
       ["Request well within quota limits",
        "Safe to proceed"])
  { estimatedCalls := estimatedCalls
    currentDailyUsage := currentDailyUsage
    remainingQuota := remainingQuota
    canProcessRequest := canProcessRequest
    riskLevel := riskRec.1
    recommendations := riskRec.2 }

/-- The record returned by APIQuotaManager.getQuotaStatus (the lastReset
timestamp is irrelevant to the claims and omitted). -/
structure QuotaStatus where
  dailyUsed : ℚ
  dailyRemaining : ℚ
  dailyUsagePercentage : ℚ
  perSecondUsed : ℚ
  perSecondRemaining : ℚ
deriving DecidableEq, Repr

/-- getQuotaStatus from apiQuotaManager.ts. -/
def getQuotaStatus (s : QuotaState) : QuotaStatus :=
  { dailyUsed := s.dailyUsage
    dailyRemaining := s.dailyLimit - s.dailyUsage
    dailyUsagePercentage := s.dailyUsage / s.dailyLimit * 100
    perSecondUsed := s.currentSecondUsage
    perSecondRemaining := s.perSecondLimit - s.currentSecondUsage }

/-- trackAPICall from apiQuotaManager.ts. -/
def trackAPICall (s : QuotaState) : QuotaState :=
  { s with dailyUsage := s.dailyUsage + 1, currentSecondUsage := s.currentSecondUsage + 1 }

/-- resetQuota from apiQuotaManager.ts: zeroes both usage counters. -/
def resetQuota (s : QuotaState) : QuotaState :=
  { s with dailyUsage := 0, currentSecondUsage := 0 }

end APIQuotaManager

/-! ### rateLimiter.ts -/

namespace RateLimiter

/-- The mutable fields of the RateLimiter class.  The request queue holds
opaque resolver closures, so only its length is modelled. -/
structure LimiterState where
  dailyCalls : Nat
  perSecondCalls : Nat
  requestQueue : Nat
  maxPerSecond : Nat
  maxPerDay : Nat
deriving DecidableEq, Repr

/-- canMakeRequest from rateLimiter.ts. -/
def canMakeRequest (s : LimiterState) : Bool :=
  if s.maxPerDay ≤ s.dailyCalls then false
  else if s.maxPerSecond ≤ s.perSecondCalls then false
  else true

/-- makeRequest from rateLimiter.ts: the accounting update of an admission. -/
def makeRequest (s : LimiterState) : LimiterState :=
  { s with dailyCalls := s.dailyCalls + 1, perSecondCalls := s.perSecondCalls + 1 }

/-- resetDailyQuota (and the interval-driven resetDailyCounter). -/
def resetDailyQuota (s : LimiterState) : LimiterState :=
  { s with dailyCalls := 0 }

/-- resetPerSecondCounter, run every second. -/
def resetPerSecondCounter (s : LimiterState) : LimiterState :=
  { s with perSecondCalls := 0 }

/-- The atomic events of the rate limiter, one per JavaScript turn that can
touch the counters: a waitForSlot call (admit directly or enqueue), one
iteration of the processQueue drain loop, and the two timer resets. -/
inductive Event where
  | waitForSlot
  | processQueueStep
  | resetDaily
  | resetPerSecond
deriving DecidableEq, Repr

/-- Execute one event.  Both admission paths call makeRequest only after
canMakeRequest has approved it in the same turn. -/
def execEvent (e : Event) (s : LimiterState) : LimiterState :=
  match e with
  | .waitForSlot =>
    if canMakeRequest s then makeRequest s
    else { s with requestQueue := s.requestQueue + 1 }
  | .processQueueStep =>
    if 0 < s.requestQueue ∧ canMakeRequest s then
      makeRequest { s with requestQueue := s.requestQueue - 1 }
    else s
  | .resetDaily => resetDailyQuota s
  | .resetPerSecond => resetPerSecondCounter s

/-- Run a sequence of events. -/
def run (events : List Event) (s : LimiterState) : LimiterState :=
  events.foldl (fun s e => execEvent e s) s

/-- The constructor state: new RateLimiter(maxPerSecond, maxPerDay). -/
def initState (maxPerSecond maxPerDay : Nat) : LimiterState :=
  { dailyCalls := 0
    perSecondCalls := 0
    requestQueue := 0
    maxPerSecond := maxPerSecond
    maxPerDay := maxPerDay }

end RateLimiter

/-! ### hexagonProcessor.ts (src/unnamed/part_002) -/

namespace HexagonProcessor

/-- Cell lifecycle status. -/
inductive CellStatus where
  | queued
  | processing
  | fetched
  | dense
  | failed
  | split
deriving DecidableEq, Repr

/-- The HexagonProcessingStatus record (fields not read by any modelled
observer are kept as the data the processor stores for them). -/
structure ProcessingStatus where
  h3Id : String
  resolution : ℤ
  parentH3Id : Option String
  childH3Ids : Option (List String)
  status : CellStatus
  coverageQuality : String
  searchPointsCount : Nat
  totalBusinesses : Option Nat
  error : Option String
  needsSubdivision : Bool
deriving DecidableEq, Repr

/-- The five maps of the HexagonProcessor class, modelled as association
lists keyed by cell id, plus the child-to-parent inverse map. -/
structure ProcessorState where
  processingQueue : List (String × ProcessingStatus)
  completedHexagons : List (String × ProcessingStatus)
  failedHexagons : List (String × ProcessingStatus)
  subdivisionQueue : List (String × ProcessingStatus)
  parentChildRelationships : List (String × List String)
  childParentRelationships : List (String × String)
deriving Repr

/-- The counters returned by getProcessingStats. -/
structure ProcessingStats where
  queued : Nat
  processing : Nat
  completed : Nat
  failed : Nat
  split : Nat
  total : Nat
  resolution7 : Nat
  resolution8 : Nat
  subdivisionQueue : Nat
  parentChildRelationships : Nat
deriving DecidableEq, Repr

/-- getProcessingStats from hexagonProcessor.ts. -/
def getProcessingStats (s : ProcessorState) : ProcessingStats :=
  let queued := (s.processingQueue.filter (fun h => h.2.status = CellStatus.queued)).length
  let processing :=
    (s.processingQueue.filter (fun h => h.2.status = CellStatus.processing)).length
  let completed := s.completedHexagons.length
  let failed := s.failedHexagons.length
  { queued := queued
    processing := processing
    completed := completed
    failed := failed
    split := (s.completedHexagons.filter (fun h => h.2.status = CellStatus.split)).length
    total := queued + processing + completed + failed
    resolution7 := (s.completedHexagons.filter (fun h => h.2.resolution = 7)).length
    resolution8 := (s.completedHexagons.filter (fun h => h.2.resolution = 8)).length
    subdivisionQueue := s.subdivisionQueue.length
    parentChildRelationships := s.parentChildRelationships.length }

/-- HexagonProcessor.clearHistory: clears all six maps and nothing else. -/
def clearHistory (_s : ProcessorState) : ProcessorState :=
  { processingQueue := []
    completedHexagons := []
    failedHexagons := []
    subdivisionQueue := []
    parentChildRelationships := []
    childParentRelationships := [] }

end HexagonProcessor

/-! ### app/api/yelp/route.ts -/

namespace YelpRoute

/-- The module-level singletons the route mutates: the hexagon processor, the
quota manager and the rate limiter. -/
structure SystemState where
  processor : HexagonProcessor.ProcessorState
  quota : APIQuotaManager.QuotaState
  limiter : RateLimiter.LimiterState

/-- The clear_history action of the route: clears the processor history,
resets the quota manager, and resets the rate limiter daily quota.  This is
the clearHistory operation of the operational surface. -/
def clearHistory (s : SystemState) : SystemState :=
  { processor := HexagonProcessor.clearHistory s.processor
    quota := APIQuotaManager.resetQuota s.quota
    limiter := RateLimiter.resetDailyQuota s.limiter }

end YelpRoute

/-! ### yelpSearch.ts -/

namespace YelpSearch

/-- One response of the paginated external search API: the reported overall
total and the page of items. -/
structure ApiPage where
  total : Nat
  businesses : List Business
deriving Repr

/-- The external API as an oracle from page offset to response; a transport
or HTTP failure is an Except.error (makeYelpSearch rethrows it). -/
def ApiOracle : Type := Nat → Except String ApiPage

/-- The YelpSearchResult record (region and searchPoint are opaque payload
set by the caller and omitted). -/
structure SearchResult where
  businesses : List Business
  total : Nat
  h3Id : String
  status : String
  error : Option String
deriving Repr

/-- deduplicateBusinesses from yelpSearch.ts: keep the first occurrence of
each identity key, in order. -/
def deduplicateBusinesses (businesses : List Business) : List Business :=
  businesses.foldl
    (fun l b => if (l.map Business.id).contains b.id then l else l ++ [b]) []

/-- The pagination while loop of searchPointWithPagination: starting at
offset 50, fetch while offset < min(total, 200), stop early on an empty
page, and abort on a thrown fetch error. -/
def pageLoop (api : ApiOracle) (total : Nat) (offset : Nat)
    (acc : List Business) : Except String (List Business) :=
  if offset < min total 200 ∧ offset < 200 then
    match api offset with
    | .error e => .error e
    | .ok nextResult =>
      if 0 < nextResult.businesses.length then
        pageLoop api total (offset + 50) (acc ++ nextResult.businesses)
      else
        .ok acc
  else
    .ok acc
termination_by 200 - offset
decreasing_by omega

/-- searchPointWithPagination from yelpSearch.ts (the lat, lng, radius of
the probe only parameterize the oracle and are left abstract).  The first
page reports the API total; pagination continues below the 200 offset
ceiling; the returned total is the length of the deduplicated fetched list;
any throw is caught and becomes a failed result. -/
def searchPointWithPagination (api : ApiOracle) : SearchResult :=
  let failed : String → SearchResult := fun e =>
    { businesses := [], total := 0, h3Id := "", status := "failed", error := some e }
  match api 0 with
  | .error e => failed e
  | .ok firstResult =>
    let total := firstResult.total
    let allBusinesses := firstResult.businesses
    let limit := 50
    let fetched : Except String (List Business) :=
      if limit < total ∧ 0 < 200 then pageLoop api total (0 + limit) allBusinesses
      else .ok allBusinesses
    match fetched with
    | .error e => failed e
    | .ok allBusinesses =>
      let uniqueBusinesses := deduplicateBusinesses allBusinesses
      { businesses := uniqueBusinesses
        total := uniqueBusinesses.length
        h3Id := ""
        status := "success"
        error := none }

end YelpSearch

/-! ### Claims -/

open HexagonSplitter HexagonCoverage in
/-- C1 counterexample: for child totals {50, 0, 300} the code sets
coverageStatus to partial-dense and then overwrites it with partial-empty,
so the merged status is partial-empty, not the partial-dense the claim
requires when a dense child and a zero-count child are both present. -/
theorem C1_counterexample :
    (HexagonSplitter.mergeSubHexagonResults "parent"
        [⟨"a", [], 50⟩, ⟨"b", [], 0⟩, ⟨"c", [], 300⟩]).coverageStatus =
      "partial-empty" ∧
    (HexagonSplitter.mergeSubHexagonResults "parent"
        [⟨"a", [], 50⟩, ⟨"b", [], 0⟩, ⟨"c", [], 300⟩]).coverageStatus ≠
      "partial-dense" := by
  constructor
  · rfl
  · decide

/-- C1 amended: mergeSubHexagonResults returns coverageStatus partial-empty
when any child total is zero (this takes precedence), otherwise partial-dense
when any child total exceeds 240, otherwise complete. -/
theorem C1_amended (originalH3Id : String)
    (splitResults : List HexagonSplitter.SubResult) :
    (HexagonSplitter.mergeSubHexagonResults originalH3Id splitResults).coverageStatus =
      if splitResults.any (fun r => decide (r.total = 0)) then "partial-empty"
      else if splitResults.any (fun r => decide (240 < r.total)) then "partial-dense"
      else "complete" := by
  unfold HexagonSplitter.mergeSubHexagonResults
  cases h0 : splitResults.any (fun r => decide (r.total = 0)) <;>
    cases h1 : splitResults.any (fun r => decide (240 < r.total)) <;>
      simp [h0, h1]

/-- C5 counterexample: splitHexagon accepts a jump of 3 resolution levels
(7 to 10), even though validateSplitConfiguration rejects that very
configuration — the jump and maximum-resolution checks are not part of
splitHexagon. -/
theorem C5_counterexample :
    (HexagonSplitter.splitHexagon ⟨fun _ => (0, 0), fun _ _ => ["c1"]⟩
        "h" 7 10).isOk = true ∧
    HexagonSplitter.validateSplitConfiguration 7 10 = false := by
  constructor
  · rfl
  · rfl

/-- C5 amended: splitHexagon rejects a split exactly when the target
resolution is not strictly greater than the current one; the rejection of
jumps of more than 2 levels and of targets above 12 is performed only by the
separate validateSplitConfiguration predicate, which splitHexagon does not
invoke. -/
theorem C5_amended :
    (∀ (g : HexagonSplitter.SplitterGrid) (h3Id : String) (cur target : ℤ),
        (HexagonSplitter.splitHexagon g h3Id cur target).isOk = true ↔ cur < target) ∧
    (∀ cur target : ℤ,
        HexagonSplitter.validateSplitConfiguration cur target = true ↔
          cur < target ∧ target - cur ≤ 2 ∧ target ≤ 12) := by
  constructor
  · intro g h3Id cur target
    unfold HexagonSplitter.splitHexagon
    split_ifs with h
    · constructor
      · intro hfalse
        simp [Except.isOk, Except.toBool] at hfalse
      · intro hlt
        omega
    · constructor
      · intro _
        omega
      · intro _
        rfl
  · intro cur target
    unfold HexagonSplitter.validateSplitConfiguration
    split_ifs
    all_goals simp_all
    all_goals omega

/-- C3: the clear_history operation of the route resets every processing
counter of getProcessingStats to zero and leaves the quota manager reporting
zero daily and per-second usage. -/
theorem C3_clearHistory_resets_state (s : YelpRoute.SystemState) :
    (HexagonProcessor.getProcessingStats (YelpRoute.clearHistory s).processor).queued = 0 ∧
    (HexagonProcessor.getProcessingStats (YelpRoute.clearHistory s).processor).processing = 0 ∧
    (HexagonProcessor.getProcessingStats (YelpRoute.clearHistory s).processor).completed = 0 ∧
    (HexagonProcessor.getProcessingStats (YelpRoute.clearHistory s).processor).failed = 0 ∧
    (HexagonProcessor.getProcessingStats (YelpRoute.clearHistory s).processor).split = 0 ∧
    (HexagonProcessor.getProcessingStats (YelpRoute.clearHistory s).processor).total = 0 ∧
    (HexagonProcessor.getProcessingStats (YelpRoute.clearHistory s).processor).subdivisionQueue = 0 ∧
    (HexagonProcessor.getProcessingStats
        (YelpRoute.clearHistory s).processor).parentChildRelationships = 0 ∧
    (APIQuotaManager.getQuotaStatus (YelpRoute.clearHistory s).quota).dailyUsed = 0 ∧
    (APIQuotaManager.getQuotaStatus (YelpRoute.clearHistory s).quota).perSecondUsed = 0 := by
  simp [YelpRoute.clearHistory, HexagonProcessor.clearHistory,
    HexagonProcessor.getProcessingStats, APIQuotaManager.resetQuota,
    APIQuotaManager.getQuotaStatus]

/-- C6 counterexample: a plan with two primary probes (and a small cell area)
is accepted by validateCoverage, because the code only checks that Array.find
locates some primary probe; the claimed rejection of plans with two or more
primaries does not exist. -/
theorem C6_counterexample :
    HexagonCoverage.validateCoverage
        ⟨fun _ => .ok (0, 0), fun _ => .ok [], fun _ _ => .ok 0, fun _ => .ok 1⟩
        { h3Id := "h"
          center := (0, 0)
          searchPoints := [⟨0, 0, 1000, .primary, "p1"⟩, ⟨0, 0, 1000, .primary, "p2"⟩]
          totalRadius := 1000
          coverageStrategy := "adaptive-coverage-optimized" } = true ∧
    ([⟨0, 0, 1000, .primary, "p1"⟩, (⟨0, 0, 1000, .primary, "p2"⟩ : HexagonCoverage.SearchPoint)].filter
        (fun p => p.type = HexagonCoverage.PointType.primary)).length = 2 := by
  constructor
  · rfl
  · rfl

/-- C6 amended: validateCoverage accepts a plan if and only if it has at
least one probe, at least one of them is primary (two or more primaries are
not rejected), and, when the cell area exceeds 10 km2, at least 2 corner
probes are present. -/
theorem C6_amended (w : HexagonCoverage.GeoWorld) (cov : HexagonCoverage.Coverage) :
    HexagonCoverage.validateCoverage w cov = true ↔
      cov.searchPoints ≠ [] ∧
      (∃ p ∈ cov.searchPoints, p.type = HexagonCoverage.PointType.primary) ∧
      (10 < HexagonCoverage.calculateHexagonArea w cov.h3Id →
        2 ≤ (cov.searchPoints.filter
          (fun p => p.type = HexagonCoverage.PointType.corner)).length) := by
  unfold HexagonCoverage.validateCoverage
  by_cases h0 : cov.searchPoints.length = 0
  · rw [if_pos h0]
    rw [List.length_eq_zero] at h0
    simp [h0]
  · rw [if_neg h0]
    rcases hf : cov.searchPoints.find?
        (fun p => p.type = HexagonCoverage.PointType.primary) with _ | p
    · simp only [hf]
      rw [List.find?_eq_none] at hf
      refine iff_of_false (by simp) ?_
      intro hc
      rcases hc with ⟨_, ⟨q, hq, hqt⟩, _⟩
      exact absurd (by simpa using hqt) (by simpa using hf q hq)
    · have hne : cov.searchPoints ≠ [] := by
        intro he
        rw [he] at h0
        exact h0 rfl
      have hex : ∃ q ∈ cov.searchPoints, q.type = HexagonCoverage.PointType.primary := by
        have hsat := List.find?_some hf
        have hmem := List.mem_of_find?_eq_some hf
        exact ⟨p, hmem, by simpa using hsat⟩
      simp only [hf]
      split_ifs with hcon
      · refine iff_of_false (by simp) ?_
        intro hc
        rcases hc with ⟨_, _, himp⟩
        rcases hcon with ⟨harea, hlen⟩
        have := himp harea
        omega
      · refine iff_of_true rfl ⟨hne, hex, ?_⟩
        intro harea
        by_contra hlt
        exact hcon ⟨harea, by omega⟩

/-- C7 counterexample: with dailyLimit 100, dailyUsed 0 and 90 estimated
calls the code classifies the risk as critical (90 exceeds 80 percent of the
remaining 100) yet canProcessRequest is true (90 fits in the remaining 100),
so critical does not imply that the operation cannot proceed. -/
theorem C7_counterexample :
    (APIQuotaManager.estimateQuotaForCity ⟨0, 100, 50, 0⟩ 90 1 1).riskLevel = "critical" ∧
    (APIQuotaManager.estimateQuotaForCity ⟨0, 100, 50, 0⟩ 90 1 1).canProcessRequest = true := by
  constructor
  · norm_num [APIQuotaManager.estimateQuotaForCity]
  · norm_num [APIQuotaManager.estimateQuotaForCity]

/-- C7 amended: for positive remaining quota r and estimate e, the risk level
is low exactly when e divided by r is at most 40 percent (the 40 percent
boundary itself is low, not medium), medium on (40, 60], high on (60, 80] and
critical above 80 percent; canProcessRequest is true exactly when e is at
most r, so a critical estimate can still be processable. -/
theorem C7_amended (s : APIQuotaManager.QuotaState)
    (hexagonCount avg pages e r : ℚ)
    (he : e = hexagonCount * avg * pages)
    (hrdef : r = s.dailyLimit - s.dailyUsage)
    (hr : 0 < r) :
    ((APIQuotaManager.estimateQuotaForCity s hexagonCount avg pages).riskLevel = "low" ↔
      e / r ≤ 4 / 10) ∧
    ((APIQuotaManager.estimateQuotaForCity s hexagonCount avg pages).riskLevel = "medium" ↔
      4 / 10 < e / r ∧ e / r ≤ 6 / 10) ∧
    ((APIQuotaManager.estimateQuotaForCity s hexagonCount avg pages).riskLevel = "high" ↔
      6 / 10 < e / r ∧ e / r ≤ 8 / 10) ∧
    ((APIQuotaManager.estimateQuotaForCity s hexagonCount avg pages).riskLevel = "critical" ↔
      8 / 10 < e / r) ∧
    ((APIQuotaManager.estimateQuotaForCity s hexagonCount avg pages).canProcessRequest = true ↔
      e ≤ r) := by
  rw [div_le_iff₀ hr, div_le_iff₀ hr, div_le_iff₀ hr,
    lt_div_iff₀ hr, lt_div_iff₀ hr, lt_div_iff₀ hr]
  subst he hrdef
  simp only [APIQuotaManager.estimateQuotaForCity, decide_eq_true_eq]
  split_ifs with h1 h2 h3 <;>
    refine ⟨?_, ?_, ?_, ?_, trivial⟩ <;>
      constructor <;>
        first
          | (intro hs; exact absurd hs (by decide))
          | (intro hs; constructor <;> linarith)
          | (intro hs; linarith)

/-- C7 witness: the spec scenario dailyLimit 100, dailyUsed 95, 10 estimated
calls yields riskLevel critical and canProcessRequest false, via the amended
characterization at e = 10, r = 5. -/
theorem C7_witness :
    (APIQuotaManager.estimateQuotaForCity ⟨95, 100, 50, 0⟩ 10 1 1).riskLevel = "critical" ∧
    (APIQuotaManager.estimateQuotaForCity ⟨95, 100, 50, 0⟩ 10 1 1).canProcessRequest = false := by
  have h := C7_amended ⟨95, 100, 50, 0⟩ 10 1 1 10 5 (by norm_num) (by norm_num) (by norm_num)
  constructor
  · exact h.2.2.2.1.mpr (by norm_num)
  · cases hq : (APIQuotaManager.estimateQuotaForCity ⟨95, 100, 50, 0⟩ 10 1 1).canProcessRequest
    · rfl
    · exact absurd (h.2.2.2.2.mp hq) (by norm_num)

/-- C2 counterexample: when the boundary lookup throws, generateSearchPoints
does not fall back — its own catch rethrows a wrapped error to the caller,
so no plan is returned. -/
theorem C2_counterexample :
    HexagonCoverage.generateSearchPoints
        ⟨fun _ => .ok (0, 0), fun _ => .error "boundary failure",
          fun _ _ => .ok 0, fun _ => .ok 1⟩ "h" =
      .error "Failed to generate search points for hexagon h" := by
  rfl

/-- C2 amended: generateSearchPoints returns a plan whenever the center and
boundary lookups succeed — a failure inside the radius computation falls back
to the fixed conservative 1060 m primary radius and a failure of the area
computation falls back to area 0 — but when the center or boundary lookup
itself fails, the error is rethrown to the caller. -/
theorem C2_amended (w : HexagonCoverage.GeoWorld) (h3Id : String)
    (c : ℚ × ℚ) (b : List (ℚ × ℚ))
    (hc : w.cellToLatLng h3Id = .ok c)
    (hb : w.cellToBoundary h3Id = .ok b) :
    (∃ cov, HexagonCoverage.generateSearchPoints w h3Id = .ok cov) ∧
    (b ≠ [] →
      (∀ p q, (w.distance p q).isOk = false) →
      ∃ cov, HexagonCoverage.generateSearchPoints w h3Id = .ok cov ∧
        ∃ pt ∈ cov.searchPoints,
          pt.type = HexagonCoverage.PointType.primary ∧ pt.radius = 1060) := by
  unfold HexagonCoverage.generateSearchPoints
  rw [hc, hb]
  constructor
  · exact ⟨_, rfl⟩
  · intro hbne hd
    refine ⟨_, rfl, ?_⟩
    have hrad : HexagonCoverage.calculateOptimalRadius w c b = 1060 := by
      unfold HexagonCoverage.calculateOptimalRadius
      cases b with
      | nil => exact absurd rfl hbne
      | cons v rest =>
        have hvd := hd (c.2, c.1) (v.2, v.1)
        unfold HexagonCoverage.maxDistanceLoop
        cases hdd : w.distance (c.2, c.1) (v.2, v.1) with
        | error e => simp [hdd]
        | ok d => rw [hdd] at hvd; simp [Except.isOk, Except.toBool] at hvd
    unfold HexagonCoverage.generateAdaptiveSearchPoints
    exact ⟨_, List.mem_cons_self _ _, rfl, hrad⟩

/-- C2 witness: a world whose distance oracle always throws still yields a
plan whose primary probe has the 1060 m fallback radius. -/
theorem C2_witness :
    ∃ cov, HexagonCoverage.generateSearchPoints
        ⟨fun _ => .ok (0, 0), fun _ => .ok [(1, 0)],
          fun _ _ => .error "distance failure", fun _ => .ok 1⟩ "h" = .ok cov ∧
      ∃ pt ∈ cov.searchPoints,
        pt.type = HexagonCoverage.PointType.primary ∧ pt.radius = 1060 := by
  exact (C2_amended
      ⟨fun _ => .ok (0, 0), fun _ => .ok [(1, 0)],
        fun _ _ => .error "distance failure", fun _ => .ok 1⟩
      "h" (0, 0) [(1, 0)] rfl rfl).2 (by simp) (fun _ _ => rfl)

/-- C4 counterexample: for a cell whose farthest boundary vertex lies 1222 m
from the center, the code returns round(min(0.9 x 1222, 1.1 x 1060)) = 1100 m
regardless of the cell resolution, while the claimed formula with the
expected in-radius of a resolution-8 cell (about 400 m, the resolution-7
1060 m shrunk by the square root of the 7x area branching factor) gives
440 m. -/
theorem C4_counterexample :
    HexagonCoverage.calculateOptimalRadius
        ⟨fun _ => .ok (0, 0), fun _ => .ok [(0, 0)],
          fun _ _ => .ok 1222, fun _ => .ok 1⟩ (0, 0) [(0, 0)] = 1100 ∧
    HexagonCoverage.claimPrimaryRadius 400 1222 = 440 ∧
    (1100 : ℚ) ≠ 440 := by
  refine ⟨?_, ?_, by norm_num⟩
  · simp only [HexagonCoverage.calculateOptimalRadius, HexagonCoverage.maxDistanceLoop]
    rw [round_eq]
    norm_num [min_def]
  · simp only [HexagonCoverage.claimPrimaryRadius]
    rw [round_eq]
    norm_num [min_def]

/-- Helper for C4: when every distance lookup succeeds, the loop of
calculateOptimalRadius computes the fold of max over the per-vertex
distances. -/
theorem maxDistanceLoop_eq_foldl (w : HexagonCoverage.GeoWorld) (center : ℚ × ℚ)
    (f : ℚ × ℚ → ℚ) :
    ∀ (l : List (ℚ × ℚ)) (acc : ℚ),
      (∀ v ∈ l, w.distance (center.2, center.1) (v.2, v.1) = .ok (f v)) →
      HexagonCoverage.maxDistanceLoop w center l acc =
        .ok (l.foldl (fun a v => max a (f v)) acc)
  | [], acc, _ => rfl
  | v :: rest, acc, hd => by
    unfold HexagonCoverage.maxDistanceLoop
    rw [hd v (List.mem_cons_self _ _)]
    exact maxDistanceLoop_eq_foldl w center f rest (max acc (f v))
      (fun u hu => hd u (List.mem_cons_of_mem _ hu))

/-- C4 amended: when the distances are available, the primary-probe radius is
round(min(0.9 x max distance to a boundary vertex, 1.1 x 1060 m)) — the
1060 m in-radius constant of grid resolution 7 is hardcoded and applied
unconditionally, independent of the cell resolution, also for child cells at
finer resolutions. -/
theorem C4_amended (w : HexagonCoverage.GeoWorld) (center : ℚ × ℚ)
    (boundary : List (ℚ × ℚ)) (f : ℚ × ℚ → ℚ)
    (hd : ∀ v ∈ boundary, w.distance (center.2, center.1) (v.2, v.1) = .ok (f v)) :
    HexagonCoverage.calculateOptimalRadius w center boundary =
      ((round (min ((boundary.foldl (fun a v => max a (f v)) 0) * (9 / 10))
        ((1060 : ℚ) * (11 / 10))) : ℤ) : ℚ) := by
  unfold HexagonCoverage.calculateOptimalRadius
  rw [maxDistanceLoop_eq_foldl w center f boundary 0 hd]

/-- C4 witness: at a single vertex 1222 m away the amended formula evaluates
to 1100 m. -/
theorem C4_witness :
    HexagonCoverage.calculateOptimalRadius
        ⟨fun _ => .ok (0, 0), fun _ => .ok [(3, 4)],
          fun _ _ => .ok 1222, fun _ => .ok 1⟩ (0, 0) [(3, 4)] = 1100 := by
  rw [C4_amended
    ⟨fun _ => .ok (0, 0), fun _ => .ok [(3, 4)],
      fun _ _ => .ok 1222, fun _ => .ok 1⟩
    (0, 0) [(3, 4)] (fun _ => 1222) (fun _ _ => rfl)]
  simp only [List.foldl]
  rw [round_eq]
  norm_num [min_def, max_def]

/-- C8: for a cell whose boundary has at least 3 vertices, the coverage plan
(a pure function of the cell data, hence deterministic) has exactly 1 probe
when the area is at most 3 km2, exactly 3 probes (primary + 2 corner) when
the area is in (3, 8] km2, and exactly 6 probes (primary + 3 corner + 2
edge) when the area exceeds 8 km2. -/
theorem C8_probe_counts (center : ℚ × ℚ) (boundary : List (ℚ × ℚ))
    (primaryRadius hexagonArea : ℚ) (hb : 3 ≤ boundary.length) :
    (hexagonArea ≤ 3 →
      (HexagonCoverage.generateAdaptiveSearchPoints center boundary primaryRadius
        hexagonArea).length = 1) ∧
    (3 < hexagonArea → hexagonArea ≤ 8 →
      (HexagonCoverage.generateAdaptiveSearchPoints center boundary primaryRadius
        hexagonArea).length = 3) ∧
    (8 < hexagonArea →
      (HexagonCoverage.generateAdaptiveSearchPoints center boundary primaryRadius
        hexagonArea).length = 6) := by
  unfold HexagonCoverage.generateAdaptiveSearchPoints
  dsimp only
  refine ⟨?_, ?_, ?_⟩
  · intro h3
    rw [if_neg (by linarith), if_neg (by linarith)]
    rfl
  · intro h3 h8
    rw [if_neg (by linarith), if_pos h3]
    simp [HexagonCoverage.generateCornerSearches]
    omega
  · intro h8
    rw [if_pos h8]
    simp [HexagonCoverage.generateCornerSearches, HexagonCoverage.generateEdgeSearches]
    omega

/-- C8 witness: a triangle boundary with area 10 km2 yields the 6-probe
plan. -/
theorem C8_witness :
    3 ≤ ([((0 : ℚ), (0 : ℚ)), (1, 0), (0, 1)] : List (ℚ × ℚ)).length ∧
    (HexagonCoverage.generateAdaptiveSearchPoints (0, 0)
      [((0 : ℚ), (0 : ℚ)), (1, 0), (0, 1)] 1000 10).length = 6 :=
  ⟨by decide,
    (C8_probe_counts (0, 0) [((0 : ℚ), (0 : ℚ)), (1, 0), (0, 1)] 1000 10
      (by decide)).2.2 (by norm_num)⟩

/-- Helper for C9: no event changes the configured daily ceiling. -/
theorem execEvent_maxPerDay (e : RateLimiter.Event) (s : RateLimiter.LimiterState) :
    (RateLimiter.execEvent e s).maxPerDay = s.maxPerDay := by
  cases e <;>
    simp only [RateLimiter.execEvent, RateLimiter.makeRequest,
      RateLimiter.resetDailyQuota, RateLimiter.resetPerSecondCounter] <;>
    split_ifs <;> rfl

/-- Helper for C9: a true canMakeRequest means the daily counter is strictly
below the daily ceiling. -/
theorem canMakeRequest_lt (s : RateLimiter.LimiterState)
    (h : RateLimiter.canMakeRequest s = true) : s.dailyCalls < s.maxPerDay := by
  unfold RateLimiter.canMakeRequest at h
  split_ifs at h with h1 h2
  omega

/-- Helper for C9: one event preserves the daily-limit invariant. -/
theorem execEvent_inv (e : RateLimiter.Event) (s : RateLimiter.LimiterState)
    (h : s.dailyCalls ≤ s.maxPerDay) :
    (RateLimiter.execEvent e s).dailyCalls ≤ (RateLimiter.execEvent e s).maxPerDay := by
  cases e with
  | waitForSlot =>
    simp only [RateLimiter.execEvent]
    split_ifs with hcan
    · have := canMakeRequest_lt s hcan
      simp only [RateLimiter.makeRequest]
      omega
    · exact h
  | processQueueStep =>
    simp only [RateLimiter.execEvent]
    split_ifs with hcan
    · have := canMakeRequest_lt s hcan.2
      simp only [RateLimiter.makeRequest]
      omega
    · exact h
  | resetDaily =>
    simp only [RateLimiter.execEvent, RateLimiter.resetDailyQuota]
    exact Nat.zero_le _
  | resetPerSecond => exact h

/-- Helper for C9: the invariant holds along any run. -/
theorem run_inv (events : List RateLimiter.Event) :
    ∀ s : RateLimiter.LimiterState, s.dailyCalls ≤ s.maxPerDay →
      (RateLimiter.run events s).dailyCalls ≤ (RateLimiter.run events s).maxPerDay := by
  induction events with
  | nil => intro s h; exact h
  | cons e rest ih =>
    intro s h
    exact ih (RateLimiter.execEvent e s) (execEvent_inv e s h)

/-- Helper for C9: the daily ceiling is constant along any run. -/
theorem run_maxPerDay (events : List RateLimiter.Event) :
    ∀ s : RateLimiter.LimiterState,
      (RateLimiter.run events s).maxPerDay = s.maxPerDay := by
  induction events with
  | nil => intro s; rfl
  | cons e rest ih =>
    intro s
    rw [RateLimiter.run, List.foldl_cons, ← RateLimiter.run, ih, execEvent_maxPerDay]

/-- C9: across every event sequence from a fresh limiter the daily counter
stays between 0 and maxPerDay, and the counter is incremented by an event
only when canMakeRequest approved it beforehand — in both the direct
waitForSlot path and the queued processQueue path. -/
theorem C9_rate_limiter_invariant :
    (∀ (events : List RateLimiter.Event) (maxPerSecond maxPerDay : Nat),
      0 ≤ (RateLimiter.run events (RateLimiter.initState maxPerSecond maxPerDay)).dailyCalls ∧
      (RateLimiter.run events (RateLimiter.initState maxPerSecond maxPerDay)).dailyCalls ≤
        maxPerDay) ∧
    (∀ (s : RateLimiter.LimiterState) (e : RateLimiter.Event),
      s.dailyCalls < (RateLimiter.execEvent e s).dailyCalls →
      RateLimiter.canMakeRequest s = true) := by
  constructor
  · intro events maxPerSecond maxPerDay
    refine ⟨Nat.zero_le _, ?_⟩
    have h := run_inv events (RateLimiter.initState maxPerSecond maxPerDay) (Nat.zero_le _)
    rwa [run_maxPerDay events (RateLimiter.initState maxPerSecond maxPerDay)] at h
  · intro s e hlt
    cases e with
    | waitForSlot =>
      by_cases hcan : RateLimiter.canMakeRequest s = true
      · exact hcan
      · exfalso
        simp only [RateLimiter.execEvent, if_neg hcan] at hlt
        omega
    | processQueueStep =>
      by_cases hcan : 0 < s.requestQueue ∧ RateLimiter.canMakeRequest s = true
      · exact hcan.2
      · exfalso
        simp only [RateLimiter.execEvent, if_neg hcan] at hlt
        omega
    | resetDaily =>
      exfalso
      simp only [RateLimiter.execEvent, RateLimiter.resetDailyQuota] at hlt
      omega
    | resetPerSecond =>
      exfalso
      simp only [RateLimiter.execEvent, RateLimiter.resetPerSecondCounter] at hlt
      omega

/-- C9 witness: two waitForSlot calls against a one-per-day limiter leave the
daily counter at most 1, and the admission that raised the counter from the
fresh state was approved by canMakeRequest. -/
theorem C9_witness :
    (RateLimiter.run [RateLimiter.Event.waitForSlot, RateLimiter.Event.waitForSlot]
      (RateLimiter.initState 5 1)).dailyCalls ≤ 1 ∧
    RateLimiter.canMakeRequest (RateLimiter.initState 5 1) = true :=
  ⟨(C9_rate_limiter_invariant.1
      [RateLimiter.Event.waitForSlot, RateLimiter.Event.waitForSlot] 5 1).2,
    C9_rate_limiter_invariant.2 (RateLimiter.initState 5 1)
      RateLimiter.Event.waitForSlot (by decide)⟩

/-- Helper for C10: the dedup fold keeps the identity keys of its
accumulator free of duplicates. -/
theorem dedup_foldl_nodup :
    ∀ (l acc : List Business), (acc.map Business.id).Nodup →
      ((l.foldl
          (fun l b => if (l.map Business.id).contains b.id then l else l ++ [b])
          acc).map Business.id).Nodup
  | [], _, h => h
  | b :: rest, acc, h => by
    rw [List.foldl_cons]
    by_cases hc : (acc.map Business.id).contains b.id = true
    · rw [if_pos hc]
      exact dedup_foldl_nodup rest acc h
    · rw [if_neg hc]
      apply dedup_foldl_nodup
      rw [List.map_append, List.map_cons, List.map_nil, List.nodup_append]
      refine ⟨h, List.nodup_singleton _, ?_⟩
      intro a ha hb
      rw [List.mem_singleton] at hb
      subst hb
      exact hc (by simpa using ha)

/-- Helper for C10: deduplication never produces duplicate identity keys. -/
theorem deduplicateBusinesses_nodup (l : List Business) :
    ((YelpSearch.deduplicateBusinesses l).map Business.id).Nodup :=
  dedup_foldl_nodup l [] (by simp)

/-- Helper for C10: the dedup fold grows the accumulator by at most one item
per input item. -/
theorem dedup_foldl_length :
    ∀ (l acc : List Business),
      (l.foldl
        (fun l b => if (l.map Business.id).contains b.id then l else l ++ [b])
        acc).length ≤ acc.length + l.length
  | [], acc => by simp
  | b :: rest, acc => by
    rw [List.foldl_cons]
    by_cases hc : (acc.map Business.id).contains b.id = true
    · rw [if_pos hc]
      have := dedup_foldl_length rest acc
      simp only [List.length_cons]
      omega
    · rw [if_neg hc]
      have := dedup_foldl_length rest (acc ++ [b])
      simp only [List.length_append, List.length_cons, List.length_nil] at this ⊢
      omega

/-- Helper for C10: deduplication never lengthens the list. -/
theorem deduplicateBusinesses_length_le (l : List Business) :
    (YelpSearch.deduplicateBusinesses l).length ≤ l.length := by
  have := dedup_foldl_length l []
  simpa [YelpSearch.deduplicateBusinesses] using this

/-- Helper for C10: a successful pagination loop returns at most 50 items per
50 offset steps below the 200 ceiling, so at most 200 - offset items beyond
its accumulator. -/
theorem pageLoop_ok_length (api : YelpSearch.ApiOracle)
    (hcap : ∀ o page, api o = .ok page → page.businesses.length ≤ 50)
    (total : Nat) :
    ∀ (offset : Nat) (acc l : List Business), offset % 50 = 0 →
      YelpSearch.pageLoop api total offset acc = .ok l →
      l.length ≤ acc.length + (200 - offset) := by
  suffices h : ∀ (n offset : Nat) (acc l : List Business), 200 - offset ≤ n →
      offset % 50 = 0 →
      YelpSearch.pageLoop api total offset acc = .ok l →
      l.length ≤ acc.length + (200 - offset) by
    intro offset acc l hoff hl
    exact h (200 - offset) offset acc l le_rfl hoff hl
  intro n
  induction n with
  | zero =>
    intro offset acc l h0 _ hl
    unfold YelpSearch.pageLoop at hl
    rw [if_neg (by omega)] at hl
    injection hl with h
    subst h
    exact Nat.le_add_right _ _
  | succ n ih =>
    intro offset acc l hn hoff hl
    unfold YelpSearch.pageLoop at hl
    by_cases hg : offset < min total 200 ∧ offset < 200
    · rw [if_pos hg] at hl
      cases hapi : api offset with
      | error e =>
        rw [hapi] at hl
        cases hl
      | ok page =>
        rw [hapi] at hl
        simp only at hl
        by_cases hne : 0 < page.businesses.length
        · rw [if_pos hne] at hl
          have hlen := hcap offset page hapi
          have hrec := ih (offset + 50) (acc ++ page.businesses) l (by omega) (by omega) hl
          rw [List.length_append] at hrec
          omega
        · rw [if_neg hne] at hl
          injection hl with h
          subst h
          exact Nat.le_add_right _ _
    · rw [if_neg hg] at hl
      injection hl with h
      subst h
      exact Nat.le_add_right _ _

/-- C10: for every API oracle whose pages hold at most the 50-item page
size, the per-probe result has total equal to the length of its deduplicated
businesses list, that list has pairwise distinct identity keys, and the
total is bounded by the 200-offset pagination ceiling — independent of the
totalCount the first page reported. -/
theorem C10_pagination_total (api : YelpSearch.ApiOracle)
    (hcap : ∀ o page, api o = .ok page → page.businesses.length ≤ 50) :
    (YelpSearch.searchPointWithPagination api).total =
      (YelpSearch.searchPointWithPagination api).businesses.length ∧
    ((YelpSearch.searchPointWithPagination api).businesses.map Business.id).Nodup ∧
    (YelpSearch.searchPointWithPagination api).total ≤ 200 := by
  unfold YelpSearch.searchPointWithPagination
  cases hapi : api 0 with
  | error e =>
    simp only [hapi]
    exact ⟨rfl, by simp, by simp⟩
  | ok first =>
    simp only [hapi]
    have hfirst := hcap 0 first hapi
    by_cases hpag : 50 < first.total ∧ 0 < 200
    · rw [if_pos hpag]
      cases hfetch : YelpSearch.pageLoop api first.total (0 + 50) first.businesses with
      | error e =>
        simp only [hfetch]
        exact ⟨rfl, by simp, by simp⟩
      | ok all =>
        simp only [hfetch]
        refine ⟨trivial, deduplicateBusinesses_nodup all, ?_⟩
        have h1 := pageLoop_ok_length api hcap first.total (0 + 50) first.businesses all
          (by norm_num) hfetch
        have h3 := deduplicateBusinesses_length_le all
        omega
    · rw [if_neg hpag]
      refine ⟨rfl, deduplicateBusinesses_nodup first.businesses, ?_⟩
      have h3 := deduplicateBusinesses_length_le first.businesses
      exact le_trans h3 (le_trans hfirst (by norm_num))

/-- The oracle used to witness C10: every page reports a totalCount of 1000
but carries a single item keyed by its offset. -/
def c10Oracle : YelpSearch.ApiOracle :=
  fun offset => .ok ⟨1000, [⟨toString offset, (0, 0)⟩]⟩

/-- C10 witness: against c10Oracle the result total equals the length of
the deduplicated list and stays at most 200, far below the reported 1000. -/
theorem C10_witness :
    (YelpSearch.searchPointWithPagination c10Oracle).total =
      (YelpSearch.searchPointWithPagination c10Oracle).businesses.length ∧
    (YelpSearch.searchPointWithPagination c10Oracle).total ≤ 200 := by
  have h := C10_pagination_total c10Oracle (by
    intro o page hp
    simp only [c10Oracle] at hp
    injection hp with hp
    subst hp
    simp)
  exact ⟨h.1, h.2.2⟩

end Rylone
